import Mathlib

/-!
Verification of the story data-access layer and router table of
GenericStoryGameV2.

The development shallowly embeds `src/scripts/story.ts` and `router/index.ts`.
Paths are modelled as strings over a canonical separator.  The path utilities
from `utils.ts` and the name constants from `strings.ts` are not part of the
reviewed sources; they are modelled from the specification, as marked in
their doc comments.  JSON files are modelled at the level of their parsed
records: `JSON.parse` with a reviver becomes a function from the on-disk
record to the in-memory record applying the reviver's per-key rewrites, and
`JSON.stringify` with a replacer becomes the converse record map.
-/

namespace StoryGame

/-- The canonical path separator (`sep` from the runtime path module). -/
def sepC : Char := '/'

/-- Modelled from the spec: the path utilities "join/sanitize/relativize
filesystem paths across platform separators".  Sanitizing normalizes the
alternate (backslash) separator to the canonical one, one character at a
time. -/
def normalizeSep (c : Char) : Char := if c = '\\' then sepC else c

/-- Modelled from the spec: `sanitizePath` from `utils.ts`, normalizing every
separator of a path to the canonical one. -/
def sanitizePath (s : String) : String := ⟨s.data.map normalizeSep⟩

/-- Modelled from the spec: `joinPath` from `utils.ts` joins two path
segments with the canonical separator. -/
def joinPath (a b : String) : String := ⟨a.data ++ sepC :: b.data⟩

/-- `pat` is an initial segment of `l` (the character-list form of the
JavaScript test used when relativizing a path). -/
def startsWithList : List Char → List Char → Bool
  | [], _ => true
  | _ :: _, [] => false
  | p :: ps, x :: xs => p == x && startsWithList ps xs

/-- Modelled from the spec: `convertAbsoluteToRelative` from `utils.ts`
strips the base directory plus separator from the front of an absolute path
("strip away absolute path" in the caller's comment); any other input is
returned unchanged. -/
def convertAbsoluteToRelative (a base : String) : String :=
  if startsWithList (base.data ++ [sepC]) a.data then
    ⟨a.data.drop (base.data.length + 1)⟩
  else a

theorem startsWithList_append (p r : List Char) :
    startsWithList p (p ++ r) = true := by
  induction p with
  | nil => rfl
  | cons x xs ih => simpa [startsWithList] using ih

theorem convertAbsoluteToRelative_joinPath (b t : String) :
    convertAbsoluteToRelative (joinPath b t) b = t := by
  have h : (joinPath b t).data = (b.data ++ [sepC]) ++ t.data := by
    simp [joinPath]
  have h1 : startsWithList (b.data ++ [sepC]) (joinPath b t).data = true := by
    rw [h]; exact startsWithList_append _ _
  simp only [convertAbsoluteToRelative, h1, if_true]
  rw [h]
  have h3 : List.drop (b.data.length + 1) ((b.data ++ [sepC]) ++ t.data) = t.data := by
    have hl : (b.data ++ [sepC]).length = b.data.length + 1 := by simp
    rw [← hl, List.drop_left]
  rw [h3]

/-- JavaScript `Array.prototype.join` with a one-character separator, at the
character-list level. -/
def joinSep (c : Char) : List (List Char) → List Char
  | [] => []
  | [x] => x
  | x :: y :: ys => x ++ c :: joinSep c (y :: ys)

/-- JavaScript `String.prototype.split` with a one-character separator, at
the character-list level: splitting the empty string yields one empty
segment, and every separator opens a new segment. -/
def splitChar (c : Char) : List Char → List (List Char)
  | [] => [[]]
  | x :: xs =>
    if x = c then [] :: splitChar c xs
    else
      match splitChar c xs with
      | [] => [[x]]
      | y :: ys => (x :: y) :: ys

theorem splitChar_ne_nil (c : Char) (l : List Char) : splitChar c l ≠ [] := by
  cases l with
  | nil => simp [splitChar]
  | cons x xs =>
    by_cases h : x = c
    · simp [splitChar, h]
    · rcases hs : splitChar c xs with _ | ⟨y, ys⟩ <;> simp [splitChar, h, hs]

theorem joinSep_splitChar (c : Char) (l : List Char) :
    joinSep c (splitChar c l) = l := by
  induction l with
  | nil => rfl
  | cons x xs ih =>
    by_cases h : x = c
    · subst h
      rcases hs : splitChar x xs with _ | ⟨y, ys⟩
      · exact absurd hs (splitChar_ne_nil x xs)
      · rw [hs] at ih
        simp [splitChar, joinSep, hs, ih]
    · rcases hs : splitChar c xs with _ | ⟨y, ys⟩
      · exact absurd hs (splitChar_ne_nil c xs)
      · rw [hs] at ih
        cases ys with
        | nil => simp_all [splitChar, joinSep, hs]
        | cons z zs => simp_all [splitChar, joinSep, hs]

theorem splitChar_append_sep (c : Char) (a b : List Char) :
    splitChar c (a ++ c :: b) = splitChar c a ++ splitChar c b := by
  induction a with
  | nil => simp [splitChar]
  | cons x xs ih =>
    by_cases h : x = c
    · subst h
      simp [splitChar, ih]
    · rcases hs : splitChar c xs with _ | ⟨y, ys⟩
      · exact absurd hs (splitChar_ne_nil c xs)
      · rw [hs] at ih
        simp [splitChar, h, ih, hs]

theorem splitChar_sepFree (c : Char) (l : List Char) (h : c ∉ l) :
    splitChar c l = [l] := by
  induction l with
  | nil => rfl
  | cons x xs ih =>
    have hx : ¬x = c := fun hxc => h (by simp [hxc])
    have hxs : c ∉ xs := fun hc => h (by simp [hc])
    simp [splitChar, hx, ih hxs]

/-- Modelled from the spec: `strings.fileNames.scenesFolder`, the per-story
scenes subdirectory name (`story/scenes/*.json`). -/
def scenesFolderName : String := "scenes"

/-- Modelled from the spec: `strings.fileNames.resourcesFolder`, the
per-story resources subdirectory name (`story/resources/*`). -/
def resourcesFolderName : String := "resources"

/-- Modelled from the spec: `strings.fileNames.core`, the name of the core
JSON descriptor of a story.  The spec fixes its role, not the literal. -/
def coreFileName : String := "story.json"

/-- Modelled from the spec: `strings.fileNames.thumbnail`, the name of the
bundled default thumbnail image written into `resources`. -/
def thumbnailFileName : String := "thumbnail.png"

/-- Modelled from the spec: `strings.fileNames.firstScene`. -/
def firstSceneFileName : String := "first_scene.json"

/-- Modelled from the spec: `strings.fileNames.secondScene`. -/
def secondSceneFileName : String := "second_scene.json"

/-- Modelled from the spec: `strings.navigationKeywords.end`, the reserved
end-of-story sentinel marking a terminal navigation choice.  The spec fixes
its role as a reserved marker, not the literal. -/
def endSentinel : String := "#END"

/-- Modelled from the spec: the platform application-data directory
(`$APPDATA`); only its role as a path is relevant. -/
def appDataDirPath : String := "/appdata"

/-- Path to the stories collection directory, `$APPDATA/collections`. -/
def collectionsPath : String := joinPath appDataDirPath "collections"

/-- Path to the story-creator workspace directory, `$APPDATA/workspace`. -/
def workspacePath : String := joinPath appDataDirPath "workspace"

/-- A JavaScript `Date`, as produced by `new Date(raw)`.  No operation of
the reviewed code inspects a date beyond constructing and serializing it, so
it is identified by the string it was constructed from. -/
structure JsDate where
  ofString ::
  raw : String
  deriving DecidableEq, Repr

/-- Structure of story info as held in memory (`StoryInfo` in `story.ts`).
`thumbnail` and `entry_point` are declared `string` in the source interface;
they carry `Option` type here so that the JSON `null` handled by the reviver
is representable. -/
structure StoryInfo where
  title : String
  description : String
  author : String
  creation_date : JsDate
  thumbnail : Option String
  entry_point : Option String
  base_dir : String
  deriving DecidableEq, Repr

/-- The on-disk shape of a story's core JSON file: the same keys as
`StoryInfo`, with `creation_date` a raw string and JSON `null` as `none`. -/
structure StoryInfoDisk where
  title : String
  description : String
  author : String
  creation_date : String
  thumbnail : Option String
  entry_point : Option String
  base_dir : String
  deriving DecidableEq, Repr

/-- Structure of multiple choice from scene actions. -/
structure MultipleChoice where
  action : String
  destination : Option String
  deriving DecidableEq, Repr

/-- Structure of scene actions from scene info. -/
structure SceneActions where
  multiple_choice : Option (List MultipleChoice)
  single_choice : Option String
  deriving DecidableEq, Repr

/-- Structure of scene info. -/
structure SceneInfo where
  center_text : Option String
  narration_text : Option String
  background_color : Option String
  media : Option String
  scene_actions : SceneActions
  deriving DecidableEq, Repr

/-- Structure of scene info with extra information to be used in editor. -/
structure ExtraSceneInfo where
  base_scene_info : SceneInfo
  scene_name : String
  scene_path : String
  deriving DecidableEq, Repr

/-- JavaScript string coercion of a possibly-`null` string value, as it
happens when the value is concatenated into a path: `null` coerces to the
string `"null"`. -/
def jsString : Option String → String
  | some s => s
  | none => "null"

/-- `resolveStoryInfo` (story.ts:189-214): parse the story core JSON with a
reviver that turns `creation_date` into a `Date`, prepends the base
directory to `thumbnail` and `entry_point` (unconditionally - the source has
no null check on these two keys), and replaces `base_dir` by the sanitized
base directory.  The fallible file read is modelled by the caller supplying
the parsed on-disk record. -/
def resolveStoryInfo (d : StoryInfoDisk) (baseDir : String) : StoryInfo where
  title := d.title
  description := d.description
  author := d.author
  creation_date := JsDate.ofString d.creation_date
  thumbnail := some (joinPath baseDir (jsString d.thumbnail))
  entry_point := some (joinPath baseDir (jsString d.entry_point))
  base_dir := sanitizePath baseDir

/-- Serialization of a `Date` by `JSON.stringify`: a date being identified
by its construction string, its serialized form is that string. -/
def JsDate.toJSON (d : JsDate) : String := d.raw

/-- `writeStoryInfoToDisk` (story.ts:363-381): serialize a `StoryInfo` with
a replacer that relativizes `thumbnail` and `entry_point` against the base
directory and blanks `base_dir`.  The JSON record written to the story core
file is returned. -/
def writeStoryInfoToDisk (data : StoryInfo) (baseDir : String) : StoryInfoDisk where
  title := data.title
  description := data.description
  author := data.author
  creation_date := data.creation_date.toJSON
  thumbnail := some (convertAbsoluteToRelative (jsString data.thumbnail) baseDir)
  entry_point := some (convertAbsoluteToRelative (jsString data.entry_point) baseDir)
  base_dir := ""

/-- The destination rewrite applied by `resolveSceneActions`
(story.ts:244-253 and 259-268): `null` and the end sentinel pass through,
anything else gets the base directory prepended. -/
def resolveDestination (baseDir : String) (v : Option String) : Option String :=
  match v with
  | none => none
  | some s => if s = endSentinel then some s else some (joinPath baseDir s)

/-- `resolveSceneActions` (story.ts:237-270): rewrite every multiple-choice
destination and the single-choice destination with `resolveDestination`.  A
`null` multiple-choice list is left untouched (the JavaScript truthiness
guard). -/
def resolveSceneActions (sceneAction : SceneActions) (baseDir : String) :
    SceneActions where
  multiple_choice :=
    match sceneAction.multiple_choice with
    | none => none
    | some l => some (l.map fun mc =>
        { action := mc.action
          destination := resolveDestination baseDir mc.destination })
  single_choice := resolveDestination baseDir sceneAction.single_choice

/-- Modelled from the spec: the write-direction conversion of a scene
navigation destination ("for any scene navigation destination equal to the
end sentinel or null, path resolution is a no-op in both directions";
on-disk navigation paths are stored relative to the story's base directory).
A reviewed writer for scenes is not among the sources; this follows the
spec's words. -/
def writeDestination (baseDir : String) (v : Option String) : Option String :=
  match v with
  | none => none
  | some s =>
    if s = endSentinel then some s
    else some (convertAbsoluteToRelative s baseDir)

/-- `resolveBaseDirFromScenePath` (story.ts:276-281): sanitize the scene
path, split it on the separator, pop the last two components (file name and
scenes folder), and join the rest. -/
def resolveBaseDirFromScenePath (scenePath : String) : String :=
  ⟨joinSep sepC (((splitChar sepC (sanitizePath scenePath).data).dropLast).dropLast)⟩

/-- `resolveSceneInfo` (story.ts:287-308): parse a scene JSON file with a
reviver that prepends the story base directory (recovered from the scene
path) to a non-null `media` value, passes a null `media` through, and
resolves `scene_actions`. -/
def resolveSceneInfo (d : SceneInfo) (scenePath : String) : SceneInfo :=
  let baseDir := resolveBaseDirFromScenePath scenePath
  { d with
    media :=
      match d.media with
      | none => none
      | some m => some (joinPath baseDir m)
    scene_actions := resolveSceneActions d.scene_actions baseDir }

/-- One directory entry of the collections or workspace directory: its path
and the parsed story core when reading and parsing succeed (`none` models a
read or parse failure, the exception caught by the scan). -/
structure StoryDirEntry where
  path : String
  core : Option StoryInfoDisk
  deriving DecidableEq, Repr

/-- Possible location of stories. -/
inductive StoryLocation where
  | Collections
  | Workspace
  deriving DecidableEq, Repr

/-- The contents of the two scanned directories. -/
structure StoryCollectionsFS where
  collections : List StoryDirEntry
  workspace : List StoryDirEntry
  deriving DecidableEq, Repr

/-- The per-entry loop of `resolveStoriesFromFS` (story.ts:137-146): resolve
each entry and skip - `catch { continue }` - any entry whose read or parse
failed. -/
def resolveStoriesLoop : List StoryDirEntry → List StoryInfo
  | [] => []
  | e :: rest =>
    match e.core with
    | some d => resolveStoryInfo d e.path :: resolveStoriesLoop rest
    | none => resolveStoriesLoop rest

/-- `resolveStoriesFromFS` (story.ts:122-148): read the collections or
workspace directory and resolve each entry, skipping failing entries.  (The
early return on an empty directory returns the empty list, as the loop
does.) -/
def resolveStoriesFromFS (fs : StoryCollectionsFS)
    (location : StoryLocation) : List StoryInfo :=
  resolveStoriesLoop
    (match location with
     | StoryLocation.Collections => fs.collections
     | StoryLocation.Workspace => fs.workspace)

/-- JavaScript `String.prototype.replace` with a plain-string pattern and
empty replacement, at the character-list level: remove the first occurrence
of `pat`, if any. -/
def removeFirst (pat : List Char) : List Char → List Char
  | [] => []
  | x :: xs =>
    if startsWithList pat (x :: xs) then (x :: xs).drop pat.length
    else x :: removeFirst pat xs

/-- Modelled from the spec: `getObjFromPath` from `utils.ts`, returning the
object (file or directory) name of a path: its final separator-delimited
component. -/
def getObjFromPath (p : String) : String :=
  ⟨(splitChar sepC (sanitizePath p).data).getLastD []⟩

/-- One entry of a story's `scenes` directory: its path and the parsed scene
JSON when reading and parsing succeed. -/
structure SceneDirEntry where
  path : String
  scene : Option SceneInfo
  deriving DecidableEq, Repr

/-- `resolveScenesFromFS` (story.ts:155-183), applied to the listing of the
story's scenes folder: resolve each scene file, derive the scene name by
removing the first occurrence of `.json` from the file's object name, keep
the full path, and skip failing entries. -/
def resolveScenesFromFS : List SceneDirEntry → List ExtraSceneInfo
  | [] => []
  | e :: rest =>
    match e.scene with
    | some d =>
      { base_scene_info := resolveSceneInfo d e.path
        scene_name := ⟨removeFirst ".json".data (getObjFromPath e.path).data⟩
        scene_path := e.path } :: resolveScenesFromFS rest
    | none => resolveScenesFromFS rest

/-- Modelled from the spec: `templateStoryInfo` from `templateStoryData.ts`,
the static default story payload parameterized by the user's title,
description and author. -/
def templateStoryInfo (t d a : String) : StoryInfo where
  title := t
  description := d
  author := a
  creation_date := JsDate.ofString "1970-01-01T00:00:00.000Z"
  thumbnail := some (joinPath resourcesFolderName thumbnailFileName)
  entry_point := some (joinPath scenesFolderName firstSceneFileName)
  base_dir := ""

/-- Modelled from the spec: the first seed scene payload. -/
def templateSceneInfo1 : SceneInfo where
  center_text := some "A new story"
  narration_text := none
  background_color := none
  media := none
  scene_actions :=
    { multiple_choice := none
      single_choice := some (joinPath scenesFolderName secondSceneFileName) }

/-- Modelled from the spec: the second seed scene payload. -/
def templateSceneInfo2 : SceneInfo where
  center_text := none
  narration_text := some "The end"
  background_color := none
  media := none
  scene_actions := { multiple_choice := none, single_choice := some endSentinel }

/-- One filesystem effect issued by `createNewStory`, with the written
payload at record level (`createNewStory` stringifies its payloads without a
replacer, so the records are written verbatim). -/
inductive FsOp where
  | mkdir (path : String)
  | writeStoryCore (path : String) (contents : StoryInfo)
  | writeBinary (path : String)
  | writeScene (path : String) (contents : SceneInfo)
  deriving DecidableEq, Repr

/-- `createNewStory` (story.ts:317-356).  The random identifier - from
`crypto.randomUUID` in secure contexts, else `uuidv4` - is supplied as the
`uuid` argument; the filesystem effects are returned in issue order together
with the returned base directory. -/
def createNewStory (uuid story_title story_description story_author : String) :
    List FsOp × String :=
  let baseDir := joinPath workspacePath uuid
  let scenesDir := joinPath baseDir scenesFolderName
  let resourcesDir := joinPath baseDir resourcesFolderName
  ([FsOp.mkdir scenesDir,
    FsOp.mkdir resourcesDir,
    FsOp.writeStoryCore (joinPath baseDir coreFileName)
      (templateStoryInfo story_title story_description story_author),
    FsOp.writeBinary (joinPath resourcesDir thumbnailFileName),
    FsOp.writeScene (joinPath scenesDir firstSceneFileName) templateSceneInfo1,
    FsOp.writeScene (joinPath scenesDir secondSceneFileName) templateSceneInfo2],
   baseDir)

/-- `pat` is a final segment of `l`. -/
def endsWithList (pat l : List Char) : Bool :=
  startsWithList pat.reverse l.reverse

/-- One route record of `router/index.ts`: URL path pattern, route name, the
module specifier of the lazily-loaded component (each `component` in the
source is the thunk of a dynamic import, modelled here by its target
module), and whether route parameters are passed as props. -/
structure RouteRecord where
  path : String
  name : String
  component : String
  props : Bool
  deriving DecidableEq, Repr

/-- The route table (`router/index.ts:4-38`).  `props` is absent from the
first three records in the source, i.e. it defaults to false. -/
def routes : List RouteRecord :=
  [{ path := "/", name := "Home",
     component := "../views/HomeView.vue", props := false },
   { path := "/playoptions", name := "PlayOptions",
     component := "../views/PlayerViews/PlayOptionsView.vue", props := false },
   { path := "/createoptions", name := "CreateOptions",
     component := "../views/EditorViews/CreateOptionsView.vue", props := false },
   { path := "/storyplayback/:storyInfoDir", name := "StoryPlayBack",
     component := "../views/PlayerViews/StoryPlaybackView.vue", props := true },
   { path := "/editoroverview/:storyInfoDir", name := "EditorOverview",
     component := "../views/EditorViews/EditorOverviewView.vue", props := true },
   { path := "/sceneseditor/:baseDir", name := "ScenesEditor",
     component := "../views/EditorViews/ScenesEditorView.vue", props := true }]

/-! ## Helper lemmas -/

theorem mapNormalizeSep_id (l : List Char) (h : '\\' ∉ l) :
    l.map normalizeSep = l := by
  induction l with
  | nil => rfl
  | cons x xs ih =>
    have hx : ¬x = '\\' := fun hc => h (by simp [hc])
    have hxs : '\\' ∉ xs := fun hc => h (by simp [hc])
    simp [normalizeSep, hx, ih hxs]

/-! ## Claim theorems -/

/-- C1: for a story whose on-disk core JSON stores `thumbnail` and
`entry_point` relative to the story's base directory and an empty
`base_dir`, writing the resolved info straight back reproduces the original
relative values and an empty `base_dir`: the relative-to-absolute conversion
on read and the absolute-to-relative conversion on write are exact
inverses. -/
theorem storyInfo_roundtrip_relative (b t e : String) (d : StoryInfoDisk)
    (ht : d.thumbnail = some t) (he : d.entry_point = some e)
    (hb : d.base_dir = "") :
    (writeStoryInfoToDisk (resolveStoryInfo d b) b).thumbnail = some t ∧
    (writeStoryInfoToDisk (resolveStoryInfo d b) b).entry_point = some e ∧
    (writeStoryInfoToDisk (resolveStoryInfo d b) b).base_dir = "" := by
  refine ⟨?_, ?_, rfl⟩ <;>
    simp [writeStoryInfoToDisk, resolveStoryInfo, ht, he, jsString,
      convertAbsoluteToRelative_joinPath]

/-- Witness for C1 at a concrete story record. -/
theorem storyInfo_roundtrip_relative_witness :
    (writeStoryInfoToDisk (resolveStoryInfo
        { title := "Tale", description := "Desc", author := "Ada",
          creation_date := "2023-05-01T00:00:00.000Z",
          thumbnail := some "resources/img.png",
          entry_point := some "scenes/first.json", base_dir := "" }
        "/appdata/collections/story1") "/appdata/collections/story1").thumbnail
      = some "resources/img.png" ∧
    (writeStoryInfoToDisk (resolveStoryInfo
        { title := "Tale", description := "Desc", author := "Ada",
          creation_date := "2023-05-01T00:00:00.000Z",
          thumbnail := some "resources/img.png",
          entry_point := some "scenes/first.json", base_dir := "" }
        "/appdata/collections/story1") "/appdata/collections/story1").entry_point
      = some "scenes/first.json" ∧
    (writeStoryInfoToDisk (resolveStoryInfo
        { title := "Tale", description := "Desc", author := "Ada",
          creation_date := "2023-05-01T00:00:00.000Z",
          thumbnail := some "resources/img.png",
          entry_point := some "scenes/first.json", base_dir := "" }
        "/appdata/collections/story1") "/appdata/collections/story1").base_dir
      = "" :=
  storyInfo_roundtrip_relative "/appdata/collections/story1"
    "resources/img.png" "scenes/first.json" _ rfl rfl rfl

/-- C5: `writeStoryInfoToDisk` blanks `base_dir`, converts `thumbnail` and
`entry_point` from base-directory-absolute form back to the relative form,
and serializes every other field unchanged (the date through its
serialization). -/
theorem writeStoryInfoToDisk_serialization (s : StoryInfo) (b : String) :
    (writeStoryInfoToDisk s b).title = s.title ∧
    (writeStoryInfoToDisk s b).description = s.description ∧
    (writeStoryInfoToDisk s b).author = s.author ∧
    (writeStoryInfoToDisk s b).creation_date = s.creation_date.toJSON ∧
    (writeStoryInfoToDisk s b).base_dir = "" ∧
    (∀ t, s.thumbnail = some (joinPath b t) →
      (writeStoryInfoToDisk s b).thumbnail = some t) ∧
    (∀ e, s.entry_point = some (joinPath b e) →
      (writeStoryInfoToDisk s b).entry_point = some e) := by
  refine ⟨rfl, rfl, rfl, rfl, rfl, ?_, ?_⟩ <;> intro v hv <;>
    simp [writeStoryInfoToDisk, hv, jsString, convertAbsoluteToRelative_joinPath]

/-- Witness for C5 at a concrete story record. -/
theorem writeStoryInfoToDisk_serialization_witness :
    (writeStoryInfoToDisk
        { title := "Tale", description := "Desc", author := "Ada",
          creation_date := JsDate.ofString "2023-05-01T00:00:00.000Z",
          thumbnail := some (joinPath "/appdata/workspace/s" "resources/img.png"),
          entry_point := some (joinPath "/appdata/workspace/s" "scenes/first.json"),
          base_dir := "/appdata/workspace/s" }
        "/appdata/workspace/s").base_dir = "" ∧
    (writeStoryInfoToDisk
        { title := "Tale", description := "Desc", author := "Ada",
          creation_date := JsDate.ofString "2023-05-01T00:00:00.000Z",
          thumbnail := some (joinPath "/appdata/workspace/s" "resources/img.png"),
          entry_point := some (joinPath "/appdata/workspace/s" "scenes/first.json"),
          base_dir := "/appdata/workspace/s" }
        "/appdata/workspace/s").thumbnail = some "resources/img.png" ∧
    (writeStoryInfoToDisk
        { title := "Tale", description := "Desc", author := "Ada",
          creation_date := JsDate.ofString "2023-05-01T00:00:00.000Z",
          thumbnail := some (joinPath "/appdata/workspace/s" "resources/img.png"),
          entry_point := some (joinPath "/appdata/workspace/s" "scenes/first.json"),
          base_dir := "/appdata/workspace/s" }
        "/appdata/workspace/s").entry_point = some "scenes/first.json" :=
  ⟨(writeStoryInfoToDisk_serialization _ "/appdata/workspace/s").2.2.2.2.1,
   (writeStoryInfoToDisk_serialization _ "/appdata/workspace/s").2.2.2.2.2.1
     "resources/img.png" rfl,
   (writeStoryInfoToDisk_serialization _ "/appdata/workspace/s").2.2.2.2.2.2
     "scenes/first.json" rfl⟩

/-- C6: `resolveStoryInfo` parses `creation_date` into a `Date` constructed
from the stored string, and sets `base_dir` to the sanitized base directory
argument, whatever `base_dir` value the file stores. -/
theorem resolveStoryInfo_date_and_base_dir (d : StoryInfoDisk) (b : String) :
    (resolveStoryInfo d b).creation_date = JsDate.ofString d.creation_date ∧
    (resolveStoryInfo d b).base_dir = sanitizePath b :=
  ⟨rfl, rfl⟩

/-- C2, counterexample: the claim says a null `thumbnail` is passed through
unchanged by `resolveStoryInfo`, but the reviver branch for `thumbnail` and
`entry_point` (story.ts:203-205) joins the base directory onto the value
with no null check, so a null thumbnail comes back as a non-null joined
path. -/
theorem resolveStoryInfo_null_thumbnail_not_passed_through :
    (resolveStoryInfo
        { title := "", description := "", author := "", creation_date := "",
          thumbnail := none, entry_point := none, base_dir := "" }
        "/base").thumbnail ≠ none ∧
    (resolveStoryInfo
        { title := "", description := "", author := "", creation_date := "",
          thumbnail := none, entry_point := none, base_dir := "" }
        "/base").thumbnail = some (joinPath "/base" "null") := by
  exact ⟨by simp [resolveStoryInfo], rfl⟩

/-- C2, amended: during parsing, a non-null `thumbnail`, `entry_point` or
scene `media` value is rewritten to the base directory joined with the
relative value; a null `media` is passed through unchanged by
`resolveSceneInfo`, while `resolveStoryInfo` joins `thumbnail` and
`entry_point` unconditionally (a null there is not passed through). -/
theorem resolve_path_keys_amended (b p : String) (d : StoryInfoDisk)
    (t e : String) (ht : d.thumbnail = some t) (he : d.entry_point = some e)
    (sc : SceneInfo) :
    (resolveStoryInfo d b).thumbnail = some (joinPath b t) ∧
    (resolveStoryInfo d b).entry_point = some (joinPath b e) ∧
    (sc.media = none → (resolveSceneInfo sc p).media = none) ∧
    (∀ m, sc.media = some m →
      (resolveSceneInfo sc p).media
        = some (joinPath (resolveBaseDirFromScenePath p) m)) := by
  refine ⟨?_, ?_, ?_, ?_⟩
  · simp [resolveStoryInfo, ht, jsString]
  · simp [resolveStoryInfo, he, jsString]
  · intro h; simp [resolveSceneInfo, h]
  · intro m h; simp [resolveSceneInfo, h]

/-- Witness for the amended C2 at concrete records. -/
theorem resolve_path_keys_amended_witness :
    (resolveStoryInfo
        { title := "Tale", description := "Desc", author := "Ada",
          creation_date := "2023-05-01T00:00:00.000Z",
          thumbnail := some "resources/img.png",
          entry_point := some "scenes/first.json", base_dir := "" }
        "/b").thumbnail = some (joinPath "/b" "resources/img.png") ∧
    (resolveSceneInfo
        { center_text := none, narration_text := none,
          background_color := none, media := none,
          scene_actions := { multiple_choice := none, single_choice := none } }
        "/b/scenes/s.json").media = none ∧
    (resolveSceneInfo
        { center_text := none, narration_text := none,
          background_color := none, media := some "resources/clip.mp4",
          scene_actions := { multiple_choice := none, single_choice := none } }
        "/b/scenes/s.json").media
      = some (joinPath (resolveBaseDirFromScenePath "/b/scenes/s.json")
          "resources/clip.mp4") :=
  ⟨(resolve_path_keys_amended "/b" "/b/scenes/s.json" _
      "resources/img.png" "scenes/first.json" rfl rfl
      { center_text := none, narration_text := none,
        background_color := none, media := none,
        scene_actions := { multiple_choice := none, single_choice := none } }).1,
   (resolve_path_keys_amended "/b" "/b/scenes/s.json"
      { title := "Tale", description := "Desc", author := "Ada",
        creation_date := "2023-05-01T00:00:00.000Z",
        thumbnail := some "resources/img.png",
        entry_point := some "scenes/first.json", base_dir := "" }
      "resources/img.png" "scenes/first.json" rfl rfl _).2.2.1 rfl,
   (resolve_path_keys_amended "/b" "/b/scenes/s.json"
      { title := "Tale", description := "Desc", author := "Ada",
        creation_date := "2023-05-01T00:00:00.000Z",
        thumbnail := some "resources/img.png",
        entry_point := some "scenes/first.json", base_dir := "" }
      "resources/img.png" "scenes/first.json" rfl rfl _).2.2.2
     "resources/clip.mp4" rfl⟩

/-- C3: a scene navigation destination that is null or the end sentinel is
left unchanged by path resolution in the read direction and in the write
direction, both for `single_choice` and for every `multiple_choice` entry;
any other destination is joined with the base directory on read. -/
theorem sceneDestination_sentinel_noop (b : String) (v : Option String)
    (hv : v = none ∨ v = some endSentinel) :
    resolveDestination b v = v ∧
    writeDestination b v = v ∧
    (∀ sa : SceneActions,
      (resolveSceneActions sa b).single_choice
        = resolveDestination b sa.single_choice) ∧
    (∀ sa : SceneActions, ∀ l, sa.multiple_choice = some l →
      (resolveSceneActions sa b).multiple_choice
        = some (l.map fun mc =>
            { action := mc.action
              destination := resolveDestination b mc.destination })) ∧
    (∀ s : String, s ≠ endSentinel →
      resolveDestination b (some s) = some (joinPath b s)) := by
  refine ⟨?_, ?_, ?_, ?_, ?_⟩
  · rcases hv with h | h <;> subst h <;> simp [resolveDestination]
  · rcases hv with h | h <;> subst h <;> simp [writeDestination]
  · intro sa; rfl
  · intro sa l hl; simp [resolveSceneActions, hl]
  · intro s hs; simp [resolveDestination, hs]

/-- Witness for C3 at the end sentinel and a concrete scene-actions
record. -/
theorem sceneDestination_sentinel_noop_witness :
    resolveDestination "/b" (some endSentinel) = some endSentinel ∧
    writeDestination "/b" (some endSentinel) = some endSentinel ∧
    (resolveSceneActions
        { multiple_choice := some [{ action := "go", destination := none }]
          single_choice := some endSentinel } "/b").single_choice
      = resolveDestination "/b" (some endSentinel) ∧
    (resolveSceneActions
        { multiple_choice := some [{ action := "go", destination := none }]
          single_choice := some endSentinel } "/b").multiple_choice
      = some [{ action := "go", destination := resolveDestination "/b" none }] ∧
    resolveDestination "/b" (some "scenes/next.json")
      = some (joinPath "/b" "scenes/next.json") :=
  ⟨(sceneDestination_sentinel_noop "/b" (some endSentinel) (Or.inr rfl)).1,
   (sceneDestination_sentinel_noop "/b" (some endSentinel) (Or.inr rfl)).2.1,
   (sceneDestination_sentinel_noop "/b" (some endSentinel) (Or.inr rfl)).2.2.1
     { multiple_choice := some [{ action := "go", destination := none }]
       single_choice := some endSentinel },
   (sceneDestination_sentinel_noop "/b" (some endSentinel) (Or.inr rfl)).2.2.2.1
     { multiple_choice := some [{ action := "go", destination := none }]
       single_choice := some endSentinel }
     [{ action := "go", destination := none }] rfl,
   (sceneDestination_sentinel_noop "/b" (some endSentinel) (Or.inr rfl)).2.2.2.2
     "scenes/next.json" (by decide)⟩

/-- C4: scanning a directory resolves exactly the well-formed entries and
silently omits each failing one; in particular one well-formed plus one
malformed entry yield exactly one `StoryInfo`. -/
theorem resolveStoriesFromFS_skips_malformed (fs : StoryCollectionsFS)
    (e1 e2 : StoryDirEntry) (d : StoryInfoDisk)
    (h1 : e1.core = some d) (h2 : e2.core = none)
    (hfs : fs.collections = [e1, e2]) :
    resolveStoriesFromFS fs StoryLocation.Collections
      = [resolveStoryInfo d e1.path] ∧
    (∀ es : List StoryDirEntry,
      resolveStoriesLoop es
        = es.filterMap fun e => e.core.map fun c => resolveStoryInfo c e.path) := by
  constructor
  · simp [resolveStoriesFromFS, hfs, resolveStoriesLoop, h1, h2]
  · intro es
    induction es with
    | nil => rfl
    | cons e rest ih =>
      cases he : e.core <;> simp [resolveStoriesLoop, he, ih]

/-- Witness for C4: a collections directory with one well-formed and one
malformed entry. -/
theorem resolveStoriesFromFS_skips_malformed_witness :
    resolveStoriesFromFS
        { collections :=
            [{ path := "/appdata/collections/good",
               core := some
                 { title := "Tale", description := "Desc", author := "Ada",
                   creation_date := "2023-05-01T00:00:00.000Z",
                   thumbnail := some "resources/img.png",
                   entry_point := some "scenes/first.json", base_dir := "" } },
             { path := "/appdata/collections/bad", core := none }]
          workspace := [] }
        StoryLocation.Collections
      = [resolveStoryInfo
          { title := "Tale", description := "Desc", author := "Ada",
            creation_date := "2023-05-01T00:00:00.000Z",
            thumbnail := some "resources/img.png",
            entry_point := some "scenes/first.json", base_dir := "" }
          "/appdata/collections/good"] :=
  (resolveStoriesFromFS_skips_malformed _
    { path := "/appdata/collections/good",
      core := some
        { title := "Tale", description := "Desc", author := "Ada",
          creation_date := "2023-05-01T00:00:00.000Z",
          thumbnail := some "resources/img.png",
          entry_point := some "scenes/first.json", base_dir := "" } }
    { path := "/appdata/collections/bad", core := none }
    _ rfl rfl rfl).1

/-- C7: for every title, description and author, `createNewStory` uses the
random identifier as the directory name under the workspace, issues exactly
the creation of the `scenes` and `resources` subdirectories, one templated
story-info write at the story core, one binary write of the bundled default
thumbnail into `resources`, and exactly two templated scene writes into
`scenes`, and returns the story's base directory. -/
theorem createNewStory_effects (uuid t dsc a : String) :
    (createNewStory uuid t dsc a).2 = joinPath workspacePath uuid ∧
    ((createNewStory uuid t dsc a).1.filter fun o =>
        match o with | FsOp.mkdir _ => true | _ => false)
      = [FsOp.mkdir (joinPath (joinPath workspacePath uuid) scenesFolderName),
         FsOp.mkdir (joinPath (joinPath workspacePath uuid) resourcesFolderName)] ∧
    ((createNewStory uuid t dsc a).1.filter fun o =>
        match o with | FsOp.writeStoryCore _ _ => true | _ => false)
      = [FsOp.writeStoryCore (joinPath (joinPath workspacePath uuid) coreFileName)
          (templateStoryInfo t dsc a)] ∧
    ((createNewStory uuid t dsc a).1.filter fun o =>
        match o with | FsOp.writeBinary _ => true | _ => false)
      = [FsOp.writeBinary (joinPath (joinPath (joinPath workspacePath uuid)
          resourcesFolderName) thumbnailFileName)] ∧
    ((createNewStory uuid t dsc a).1.filter fun o =>
        match o with | FsOp.writeScene _ _ => true | _ => false)
      = [FsOp.writeScene (joinPath (joinPath (joinPath workspacePath uuid)
            scenesFolderName) firstSceneFileName) templateSceneInfo1,
         FsOp.writeScene (joinPath (joinPath (joinPath workspacePath uuid)
            scenesFolderName) secondSceneFileName) templateSceneInfo2] :=
  ⟨rfl, rfl, rfl, rfl, rfl⟩

/-- C8: the router defines exactly six routes, each loading a view module,
and every route whose path pattern carries a parameter (a `:` segment)
passes its route parameters to the component as props. -/
theorem router_routes_spec :
    routes.length = 6 ∧
    routes.all (fun r =>
      startsWithList "../views/".data r.component.data
        && endsWithList ".vue".data r.component.data) = true ∧
    routes.all (fun r => !(r.path.data.contains ':') || r.props) = true := by
  decide

/-- C9: applied to the join of a base directory, the scenes folder name and
a separator-free scene file name, `resolveBaseDirFromScenePath` removes
exactly the last two components and returns the sanitized base directory. -/
theorem resolveBaseDirFromScenePath_inverts_join (b n : String)
    (h1 : sepC ∉ n.data) (h2 : '\\' ∉ n.data) :
    resolveBaseDirFromScenePath (joinPath (joinPath b scenesFolderName) n)
      = sanitizePath b := by
  have hS : sepC ∉ scenesFolderName.data := by decide
  have hSmap : scenesFolderName.data.map normalizeSep = scenesFolderName.data := by
    decide
  have hnmap : n.data.map normalizeSep = n.data := mapNormalizeSep_id _ h2
  have hsep : normalizeSep sepC = sepC := by decide
  have hdata : (sanitizePath (joinPath (joinPath b scenesFolderName) n)).data
      = b.data.map normalizeSep
          ++ sepC :: (scenesFolderName.data ++ sepC :: n.data) := by
    simp [sanitizePath, joinPath, hSmap, hnmap, hsep]
  have hsplit : splitChar sepC (b.data.map normalizeSep
        ++ sepC :: (scenesFolderName.data ++ sepC :: n.data))
      = splitChar sepC (b.data.map normalizeSep)
          ++ ([scenesFolderName.data] ++ [n.data]) := by
    rw [splitChar_append_sep, splitChar_append_sep,
      splitChar_sepFree _ _ hS, splitChar_sepFree _ _ h1]
  have hdrop : ((splitChar sepC (b.data.map normalizeSep)
        ++ ([scenesFolderName.data] ++ [n.data])).dropLast).dropLast
      = splitChar sepC (b.data.map normalizeSep) := by
    rw [← List.append_assoc]
    simp
  simp only [resolveBaseDirFromScenePath]
  rw [hdata, hsplit, hdrop, joinSep_splitChar]
  rfl

/-- Witness for C9 at a concrete base directory and scene file name. -/
theorem resolveBaseDirFromScenePath_inverts_join_witness :
    resolveBaseDirFromScenePath
        (joinPath (joinPath "/appdata/workspace/story1" scenesFolderName)
          "intro.json")
      = sanitizePath "/appdata/workspace/story1" :=
  resolveBaseDirFromScenePath_inverts_join "/appdata/workspace/story1"
    "intro.json" (by decide) (by decide)

/-- C10: every entry returned by `resolveScenesFromFS` has `scene_path`
equal to the listed file's path and `scene_name` equal to the file's object
name with the first occurrence of `.json` removed - which is not a
trailing-suffix strip: a name with an earlier `.json` loses that occurrence,
as `intro.json.json` becoming `intro.json` shows. -/
theorem resolveScenesFromFS_scene_names (es : List SceneDirEntry)
    (x : ExtraSceneInfo) (hx : x ∈ resolveScenesFromFS es) :
    (∃ e, e ∈ es ∧ ∃ d, e.scene = some d ∧
      x.scene_path = e.path ∧
      x.scene_name
        = (⟨removeFirst ".json".data (getObjFromPath e.path).data⟩ : String) ∧
      x.base_scene_info = resolveSceneInfo d e.path) ∧
    (⟨removeFirst ".json".data "intro.json.json".data⟩ : String)
      = "intro.json" := by
  refine ⟨?_, by decide⟩
  revert hx
  induction es with
  | nil => intro hx; simp [resolveScenesFromFS] at hx
  | cons e rest ih =>
    intro hx
    cases he : e.scene with
    | none =>
      rw [resolveScenesFromFS, he] at hx
      obtain ⟨f, hf, rest⟩ := ih hx
      exact ⟨f, List.mem_cons_of_mem _ hf, rest⟩
    | some d =>
      rw [resolveScenesFromFS, he] at hx
      rcases List.mem_cons.mp hx with h | h
      · subst h
        exact ⟨e, List.mem_cons_self _ _, d, he, rfl, rfl, rfl⟩
      · obtain ⟨f, hf, rest⟩ := ih h
        exact ⟨f, List.mem_cons_of_mem _ hf, rest⟩

/-- Witness for C10 on a one-entry scenes directory whose file name
contains an inner `.json`. -/
theorem resolveScenesFromFS_scene_names_witness :
    (⟨removeFirst ".json".data "intro.json.json".data⟩ : String)
      = "intro.json" :=
  (resolveScenesFromFS_scene_names
    [{ path := "/b/scenes/intro.json.json",
       scene := some
         { center_text := none, narration_text := none,
           background_color := none, media := none,
           scene_actions :=
             { multiple_choice := none, single_choice := none } } }]
    { base_scene_info := resolveSceneInfo
        { center_text := none, narration_text := none,
          background_color := none, media := none,
          scene_actions :=
            { multiple_choice := none, single_choice := none } }
        "/b/scenes/intro.json.json"
      scene_name := "intro.json"
      scene_path := "/b/scenes/intro.json.json" }
    (by decide)).2

end StoryGame
